import Mathlib

/-!
# Verification of the ddht discv5 core (handshake and message dispatcher)

Shallow embedding of `ddht/v5/message_dispatcher.py` and `ddht/v5/handshake.py`.
Byte strings (node ids, keys, nonces, tags, signatures) are modelled as natural
numbers; a 32-byte value is a natural number below `2 ^ 256`, a 12-byte nonce
one below `2 ^ 96`.  Modules of the repository that are not available
(`ddht/v5/packets.py`, `ddht/v5/tags.py`, `ddht/v5/constants.py`,
`ddht/v5/messages.py`, `ddht/v5/handshake_schemes.py`, `ddht/encryption.py`) are
modelled from the specification; their definitions carry doc comments starting
with `Modelled from the spec:`.  Cryptographic primitives (AES-128-GCM,
secp256k1 signatures, HKDF) are external libraries and are modelled
symbolically: a ciphertext records key, nonce, AAD and plaintext, and
decryption succeeds exactly when key, nonce and AAD match; signature schemes
are abstract boolean validators bundled in a `HandshakeScheme` record.
-/

namespace DDHT

/-- Modelled from the spec: constants of `ddht/v5/constants.py` (not in src/).
`MAX_REQUEST_ID` bounds request ids to `[0, 2^64)` (`random.randint` is
inclusive on both ends). -/
def MAX_REQUEST_ID : Nat := 2 ^ 64 - 1

/-- Modelled from the spec: `MAX_REQUEST_ID_ATTEMPTS = 3` from
`ddht/v5/constants.py` (not in src/). -/
def MAX_REQUEST_ID_ATTEMPTS : Nat := 3

/-- Modelled from the spec: `MAX_NODES_MESSAGE_TOTAL = 16` from
`ddht/v5/constants.py` (not in src/). -/
def MAX_NODES_MESSAGE_TOTAL : Nat := 16

/-- ENR: signed key/value record; we keep the fields the verified code reads:
`sequence_number`, the derived `node_id`, the compressed `public_key` and the
`signature` (`eth_enr.ENR`, an external collaborator of the core). -/
structure ENR where
  sequence_number : Nat
  node_id : Nat
  public_key : Nat
  signature : Nat
deriving DecidableEq, Repr

/-- Modelled from the spec: the discv5 v5 message set of `ddht/v5/messages.py`
(not in src/): message-id byte 0x01 PING, 0x02 PONG, 0x03 FINDNODE, 0x04 NODES;
every message starts with a `request_id`. -/
inductive Message where
  | ping (request_id : Nat) (enr_seq : Nat)
  | pong (request_id : Nat) (enr_seq : Nat) (packet_ip : Nat) (packet_port : Nat)
  | findNode (request_id : Nat) (distances : List Nat)
  | nodes (request_id : Nat) (total : Nat) (enrs : List ENR)
deriving DecidableEq, Repr

/-- Modelled from the spec: the message-id byte prefix of each message. -/
def Message.message_type : Message → Nat
  | .ping _ _ => 1
  | .pong _ _ _ _ => 2
  | .findNode _ _ => 3
  | .nodes _ _ _ => 4

/-- Every v5 message carries a `request_id` as its first payload field. -/
def Message.request_id : Message → Nat
  | .ping rid _ => rid
  | .pong rid _ _ _ => rid
  | .findNode rid _ => rid
  | .nodes rid _ _ => rid

/-- `isinstance(m, NodesMessage)` as a boolean on the message model. -/
def Message.isNodes : Message → Bool
  | .nodes _ _ _ => true
  | _ => false

/-- `ddht.base_message.InboundMessage`: a message together with the node id of
its sender (the endpoint field plays no role in the verified code paths). -/
structure InboundMessage where
  sender_node_id : Nat
  message : Message
deriving DecidableEq, Repr

/-- Errors raised by `MessageDispatcher`: `UnexpectedMessage` from
`ddht.exceptions`, and the `ValueError` raised by `get_free_request_id` (the
spec's `ExhaustedRequestIds`). -/
inductive DispatchError where
  | unexpectedMessage
  | exhaustedRequestIds
deriving DecidableEq, Repr

/-- The dispatcher's registration state: the keys of
`request_handler_send_channels` (message types) and of
`response_handler_send_channels` (`(sender_node_id, request_id)` pairs). -/
structure DispatcherState where
  request_handler_types : List Nat
  response_handler_keys : List (Nat × Nat)
deriving Repr

/-- A delivery performed by `handle_inbound_message`: a send on the request
handler channel keyed by message type, or on the response handler channel keyed
by `(sender, request_id)`. -/
inductive Delivery where
  | toRequestHandler (message_type : Nat)
  | toResponseHandler (key : Nat × Nat)
deriving DecidableEq, Repr

/-- Observable outcome of `handle_inbound_message`: the channel sends it
performs, in order, and whether it executed `trio.lowlevel.checkpoint()`. -/
structure HandleResult where
  deliveries : List Delivery
  checkpointed : Bool
deriving DecidableEq, Repr

/-- `MessageDispatcher.handle_inbound_message`
(`ddht/v5/message_dispatcher.py:120-171`): computes `is_request` and
`is_response`, checkpoints when neither holds, sends to the request handler
when `is_request` and to the response handler when `is_response`. -/
def handle_inbound_message (st : DispatcherState) (im : InboundMessage) :
    HandleResult :=
  let message_type := im.message.message_type
  let request_id := im.message.request_id
  let is_request := message_type ∈ st.request_handler_types
  let is_response := (im.sender_node_id, request_id) ∈ st.response_handler_keys
  { deliveries :=
      (if is_request then [Delivery.toRequestHandler message_type] else []) ++
      (if is_response then
        [Delivery.toResponseHandler (im.sender_node_id, request_id)] else [])
    checkpointed := ¬ is_request ∧ ¬ is_response }

/-- `MessageDispatcher.get_free_request_id` inner loop
(`ddht/v5/message_dispatcher.py:174-177`): `draws i` is the value returned by
the `i`-th call to `get_random_request_id`; `fuel` counts remaining attempts. -/
def get_free_request_id_loop (keys : List (Nat × Nat)) (node_id : Nat)
    (draws : Nat → Nat) : Nat → Nat → Except DispatchError Nat
  | _, 0 => .error .exhaustedRequestIds
  | attempt, fuel + 1 =>
    let request_id := draws attempt
    if (node_id, request_id) ∈ keys then
      get_free_request_id_loop keys node_id draws (attempt + 1) fuel
    else
      .ok request_id

/-- `MessageDispatcher.get_free_request_id`
(`ddht/v5/message_dispatcher.py:173-183`): up to `MAX_REQUEST_ID_ATTEMPTS`
random draws; raises once they are exhausted. -/
def get_free_request_id (st : DispatcherState) (node_id : Nat)
    (draws : Nat → Nat) : Except DispatchError Nat :=
  get_free_request_id_loop st.response_handler_keys node_id draws 0
    MAX_REQUEST_ID_ATTEMPTS

/-- `MessageDispatcher.request_nodes` reception loop
(`ddht/v5/message_dispatcher.py:365-379`): one iteration per
`response_index in range(1, total)`.  NOTE: the guard in the source tests
`first_response.message`, not `next_response.message`; the translation keeps
that faithfully. -/
def request_nodes_loop (responses : Nat → InboundMessage)
    (first_response : InboundMessage) (acc : List InboundMessage) :
    Nat → Nat → Except DispatchError (List InboundMessage)
  | _, 0 => .ok acc
  | idx, remaining + 1 =>
    let next_response := responses idx
    if first_response.message.isNodes then
      request_nodes_loop responses first_response (acc ++ [next_response])
        (idx + 1) remaining
    else
      .error .unexpectedMessage

/-- `MessageDispatcher.request_nodes` (`ddht/v5/message_dispatcher.py:328-380`)
after the response subscription is set up: `responses i` is the `i`-th message
received on the subscription.  Checks that the first response is a
`NodesMessage`, bounds its `total`, then loops for the remaining
`total - 1` responses. -/
def request_nodes (responses : Nat → InboundMessage) :
    Except DispatchError (List InboundMessage) :=
  let first_response := responses 0
  match first_response.message with
  | .nodes _ total _ =>
    if total > MAX_NODES_MESSAGE_TOTAL then
      .error .unexpectedMessage
    else
      request_nodes_loop responses first_response [first_response] 1 (total - 1)
  | _ => .error .unexpectedMessage

/-! ## Packets and symbolic cryptography -/

/-- Modelled from the spec: AES-128-GCM authenticated encryption
(`ddht/encryption.py` is not in src/), symbolic: a ciphertext records the key,
the 12-byte nonce, the AAD and the typed plaintext. -/
structure Ciphertext (α : Type) where
  key : Nat
  nonce : Nat
  aad : Nat
  plaintext : α
deriving DecidableEq, Repr

/-- Modelled from the spec: AES-128-GCM encryption. -/
def aesgcm_encrypt {α : Type} (key nonce aad : Nat) (plaintext : α) :
    Ciphertext α :=
  { key := key, nonce := nonce, aad := aad, plaintext := plaintext }

/-- Modelled from the spec: AES-128-GCM authenticated decryption succeeds
exactly when key, nonce and AAD match the ones used for encryption; otherwise
the 16-byte authentication tag check fails (`DecryptionError`). -/
def aesgcm_decrypt {α : Type} (key nonce aad : Nat) (ct : Ciphertext α) :
    Option α :=
  if ct.key = key ∧ ct.nonce = nonce ∧ ct.aad = aad then
    some ct.plaintext
  else
    none

/-- Modelled from the spec: a stand-in for SHA-256 over a node id, used by the
tag computation (`ddht/v5/tags.py` is not in src/); any fixed function works
for the properties verified here. -/
def sha256_of_node_id (node_id : Nat) : Nat :=
  (node_id * 2654435761 + 97531) % 2 ^ 256

/-- Modelled from the spec: `compute_tag` of `ddht/v5/tags.py`:
`tag = sha256(dest_node_id) XOR source_node_id`. -/
def compute_tag (source_node_id destination_node_id : Nat) : Nat :=
  Nat.xor (sha256_of_node_id destination_node_id) source_node_id

/-- Modelled from the spec: `recover_source_id_from_tag` of `ddht/v5/tags.py`:
`source = sha256(local_node_id) XOR tag`. -/
def recover_source_id_from_tag (tag local_node_id : Nat) : Nat :=
  Nat.xor (sha256_of_node_id local_node_id) tag

/-- Payload of an AuthTag packet: either a proper session-encrypted message or
the random bytes of an initiating packet (`AuthTagPacket.prepare_random`). -/
inductive AuthTagPayload where
  | cipher (ct : Ciphertext Message)
  | randomData (data : Nat)
deriving DecidableEq, Repr

/-- Modelled from the spec: `AuthTagPacket` of `ddht/v5/packets.py`:
`tag ‖ rlp(auth_tag) ‖ encrypted_message`. -/
structure AuthTagPacket where
  tag : Nat
  auth_tag : Nat
  encrypted_message : AuthTagPayload
deriving DecidableEq, Repr

/-- Modelled from the spec: `AuthTagPacket.prepare`: encrypt the message under
`key` with the 12-byte `auth_tag` as nonce and `tag` as AAD. -/
def AuthTagPacket.prepare (tag auth_tag : Nat) (message : Message)
    (key : Nat) : AuthTagPacket :=
  { tag := tag, auth_tag := auth_tag,
    encrypted_message := .cipher (aesgcm_encrypt key auth_tag tag message) }

/-- Modelled from the spec: `AuthTagPacket.prepare_random`: the initiating
packet of a handshake carries 44 random bytes instead of a ciphertext. -/
def AuthTagPacket.prepare_random (tag auth_tag random_data : Nat) :
    AuthTagPacket :=
  { tag := tag, auth_tag := auth_tag,
    encrypted_message := .randomData random_data }

/-- Modelled from the spec: `AuthTagPacket.decrypt_message`: AES-GCM decrypt
with `auth_tag` as nonce and `tag` as AAD; failure is `DecryptionError`. -/
def AuthTagPacket.decrypt_message (p : AuthTagPacket) (key : Nat) :
    Option Message :=
  match p.encrypted_message with
  | .cipher ct => aesgcm_decrypt key p.auth_tag p.tag ct
  | .randomData _ => none

/-- Modelled from the spec: the auth-response plaintext
`rlp([version=5, id_nonce_signature, local_enr_or_empty])`. -/
structure AuthResponse where
  version : Nat
  id_nonce_signature : Nat
  enr : Option ENR
deriving DecidableEq, Repr

/-- Modelled from the spec: the auth header
`[auth_tag, id_nonce, "gcm", ephemeral_pub, enc_auth_response]`; the
auth-response is AES-GCM encrypted under `auth_response_key` with a zero nonce
and empty AAD (both modelled as `0`). -/
structure AuthHeader where
  auth_tag : Nat
  id_nonce : Nat
  ephemeral_public_key : Nat
  encrypted_auth_response : Ciphertext AuthResponse
deriving DecidableEq, Repr

/-- Modelled from the spec: `AuthHeaderPacket` of `ddht/v5/packets.py`:
`tag ‖ rlp(auth_header) ‖ encrypted_message`. -/
structure AuthHeaderPacket where
  tag : Nat
  auth_header : AuthHeader
  encrypted_message : Ciphertext Message
deriving DecidableEq, Repr

/-- Modelled from the spec: `AuthHeaderPacket.prepare`: encode the
auth-response as `rlp([version=5, id_nonce_signature, enr_or_empty])`, encrypt
it under `auth_response_key` (zero nonce, empty AAD), and encrypt the message
under `initiator_key` with `auth_tag` as nonce and `tag` as AAD. -/
def AuthHeaderPacket.prepare (tag auth_tag id_nonce : Nat) (message : Message)
    (initiator_key id_nonce_signature auth_response_key : Nat)
    (enr : Option ENR) (ephemeral_public_key : Nat) : AuthHeaderPacket :=
  { tag := tag
    auth_header :=
      { auth_tag := auth_tag
        id_nonce := id_nonce
        ephemeral_public_key := ephemeral_public_key
        encrypted_auth_response :=
          aesgcm_encrypt auth_response_key 0 0
            { version := 5, id_nonce_signature := id_nonce_signature,
              enr := enr } }
    encrypted_message := aesgcm_encrypt initiator_key auth_tag tag message }

/-- Modelled from the spec: `AuthHeaderPacket.decrypt_auth_response`: decrypt
under `auth_response_key` (zero nonce, empty AAD) and split the plaintext into
the id-nonce signature and the optional ENR. -/
def AuthHeaderPacket.decrypt_auth_response (p : AuthHeaderPacket)
    (auth_response_key : Nat) : Option (Nat × Option ENR) :=
  match aesgcm_decrypt auth_response_key 0 0
      p.auth_header.encrypted_auth_response with
  | some resp => some (resp.id_nonce_signature, resp.enr)
  | none => none

/-- Modelled from the spec: `AuthHeaderPacket.decrypt_message`: AES-GCM
decrypt with `auth_header.auth_tag` as nonce and `tag` as AAD. -/
def AuthHeaderPacket.decrypt_message (p : AuthHeaderPacket) (key : Nat) :
    Option Message :=
  aesgcm_decrypt key p.auth_header.auth_tag p.tag p.encrypted_message

/-- Modelled from the spec: `WhoAreYouPacket` of `ddht/v5/packets.py`:
`magic ‖ rlp([token, id_nonce, enr_seq])` where
`magic = sha256(dest_node_id ‖ "WHOAREYOU")`. -/
structure WhoAreYouPacket where
  magic : Nat
  token : Nat
  id_nonce : Nat
  enr_sequence_number : Nat
deriving DecidableEq, Repr

/-- Modelled from the spec: the WHOAREYOU magic,
`sha256(dest_node_id ‖ b"WHOAREYOU")`; a distinct stand-in hash. -/
def who_are_you_magic (destination_node_id : Nat) : Nat :=
  (destination_node_id * 40503 + 1013904223) % 2 ^ 256

/-- Modelled from the spec: `WhoAreYouPacket.prepare`. -/
def WhoAreYouPacket.prepare (destination_node_id token id_nonce
    enr_sequence_number : Nat) : WhoAreYouPacket :=
  { magic := who_are_you_magic destination_node_id
    token := token
    id_nonce := id_nonce
    enr_sequence_number := enr_sequence_number }

/-- `ddht.v5.packets.Packet`: one of the three discv5 packet shapes. -/
inductive Packet where
  | authTag (p : AuthTagPacket)
  | whoAreYou (p : WhoAreYouPacket)
  | authHeader (p : AuthHeaderPacket)
deriving DecidableEq, Repr

/-! ## Handshake (`ddht/v5/handshake.py`) -/

/-- `ddht.typing.SessionKeys`: the three AES-128 keys produced by the key
derivation, already assigned to roles by `is_locally_initiated`. -/
structure SessionKeys where
  encryption_key : Nat
  decryption_key : Nat
  auth_response_key : Nat
deriving DecidableEq, Repr

/-- Modelled from the spec: the v4 handshake scheme
(`ddht/v5/handshake_schemes.py` is not in src/), as an abstract record of its
cryptographic operations: HKDF-SHA256 session-key derivation from the ECDH
secret, id-nonce signature creation and validation over
`sha256("discovery v5 identity proof" ‖ id_nonce ‖ ephemeral_pubkey)`,
ephemeral-public-key curve-point validation, and ENR signature validation
(`eth_enr`'s `ENR.validate_signature`). -/
structure HandshakeScheme where
  compute_session_keys :
    (local_private_key remote_public_key local_node_id remote_node_id
      salt : Nat) → (is_locally_initiated : Bool) → SessionKeys
  create_id_nonce_signature :
    (id_nonce ephemeral_public_key private_key : Nat) → Nat
  validate_id_nonce_signature :
    (id_nonce ephemeral_public_key signature public_key : Nat) → Bool
  validate_handshake_public_key : Nat → Bool
  validate_enr_signature : ENR → Bool

/-- `ddht.v5.typing.HandshakeResult`: session keys, the optionally received
ENR, the optionally decrypted initial message, and the optional AuthHeader
packet to send (initiator side only). -/
structure HandshakeResult where
  session_keys : SessionKeys
  enr : Option ENR
  message : Option Message
  auth_header_packet : Option AuthHeaderPacket
deriving DecidableEq, Repr

/-- Errors of the handshake code paths: `ValueError`/`TypeError` for packets
that are not the expected response, `HandshakeFailure` (from
`ddht.exceptions`) for every protocol-level rejection; the string is the
message passed to the exception constructor. -/
inductive HandshakeError where
  | valueError (msg : String)
  | handshakeFailure (msg : String)
deriving DecidableEq, Repr

/-- Whether a handshake outcome is a raised `HandshakeFailure`. -/
def isHandshakeFailure {α : Type} : Except HandshakeError α → Prop
  | .error (.handshakeFailure _) => True
  | _ => False

/-- Whether a constructor outcome is a raised `ValueError`. -/
def isValueError {α : Type} : Except HandshakeError α → Prop
  | .error (.valueError _) => True
  | _ => False

/-- `HandshakeInitiator` (`ddht/v5/handshake.py:75-97`): state recorded by the
constructor.  `initiating_packet` is the random AuthTag packet sent first. -/
structure HandshakeInitiator where
  local_private_key : Nat
  local_enr : ENR
  remote_enr : ENR
  initial_message : Message
  initiating_packet : AuthTagPacket
deriving DecidableEq, Repr

/-- `HandshakeInitiator.__init__` (`ddht/v5/handshake.py:76-97`): records the
peers and the initial message and prepares the random initiating AuthTag
packet; `random_auth_tag` and `random_data` stand for the values drawn by
`get_random_auth_tag()` and `get_random_encrypted_data()`. -/
def mkHandshakeInitiator (local_private_key : Nat) (local_enr remote_enr : ENR)
    (initial_message : Message) (random_auth_tag random_data : Nat) :
    HandshakeInitiator :=
  { local_private_key := local_private_key
    local_enr := local_enr
    remote_enr := remote_enr
    initial_message := initial_message
    initiating_packet :=
      AuthTagPacket.prepare_random
        (compute_tag local_enr.node_id remote_enr.node_id)
        random_auth_tag random_data }

/-- `BaseHandshakeParticipant.tag` for the initiator. -/
def HandshakeInitiator.tag (self : HandshakeInitiator) : Nat :=
  compute_tag self.local_enr.node_id self.remote_enr.node_id

/-- `HandshakeInitiator.is_response_packet` (`ddht/v5/handshake.py:107-110`):
a WhoAreYou packet whose token equals the initiating packet's auth tag. -/
def HandshakeInitiator.is_response_packet (self : HandshakeInitiator)
    (packet : Packet) : Bool :=
  match packet with
  | .whoAreYou p => p.token = self.initiating_packet.auth_tag
  | _ => false

/-- `HandshakeInitiator.complete_handshake` (`ddht/v5/handshake.py:112-173`):
derive session keys from a fresh ephemeral key pair (here the oracle inputs
`ephemeral_private_key`, `ephemeral_public_key`), sign the id nonce, include
the local ENR in the auth response exactly when the WhoAreYou's
`enr_sequence_number` is below the local ENR's `sequence_number`, and prepare
the AuthHeader packet (`new_auth_tag` stands for `get_random_auth_tag()`). -/
def HandshakeInitiator.complete_handshake (scheme : HandshakeScheme)
    (self : HandshakeInitiator) (response_packet : Packet)
    (ephemeral_private_key ephemeral_public_key new_auth_tag : Nat) :
    Except HandshakeError HandshakeResult :=
  if ¬ self.is_response_packet response_packet then
    .error (.valueError "Packet is not the expected response packet")
  else
    match response_packet with
    | .whoAreYou who_are_you_packet =>
      let session_keys := scheme.compute_session_keys ephemeral_private_key
        self.remote_enr.public_key self.local_enr.node_id
        self.remote_enr.node_id who_are_you_packet.id_nonce true
      let id_nonce_signature := scheme.create_id_nonce_signature
        who_are_you_packet.id_nonce ephemeral_public_key
        self.local_private_key
      let enr : Option ENR :=
        if who_are_you_packet.enr_sequence_number <
            self.local_enr.sequence_number then
          some self.local_enr
        else
          none
      let auth_header_packet := AuthHeaderPacket.prepare self.tag new_auth_tag
        who_are_you_packet.id_nonce self.initial_message
        session_keys.encryption_key id_nonce_signature
        session_keys.auth_response_key enr ephemeral_public_key
      .ok { session_keys := session_keys, enr := none, message := none,
            auth_header_packet := some auth_header_packet }
    | _ =>
      .error (.valueError "Invariant: Only WhoAreYou packets are valid")

/-- `HandshakeRecipient` (`ddht/v5/handshake.py:176-216`): state recorded by
the constructor. -/
structure HandshakeRecipient where
  local_private_key : Nat
  local_enr : ENR
  remote_node_id : Nat
  remote_enr : Option ENR
  who_are_you_packet : WhoAreYouPacket
deriving DecidableEq, Repr

/-- `HandshakeRecipient.__init__` (`ddht/v5/handshake.py:177-216`): rejects
when neither remote ENR nor remote node id is given, or when both are given
but disagree; resolves the remote node id; prepares the WhoAreYou packet with
`token = initiating_packet_auth_tag`, a fresh random 32-byte id nonce (the
oracle input `fresh_id_nonce`, standing for `get_random_id_nonce()`), and the
known remote ENR's sequence number, or 0 if none is known. -/
def mkHandshakeRecipient (local_private_key : Nat) (local_enr : ENR)
    (remote_node_id_opt : Option Nat) (remote_enr_opt : Option ENR)
    (initiating_packet_auth_tag fresh_id_nonce : Nat) :
    Except HandshakeError HandshakeRecipient :=
  if remote_enr_opt = none ∧ remote_node_id_opt = none then
    .error (.valueError
      "Either the peer's ENR, its node id, or both must be given")
  else if remote_enr_opt ≠ none ∧ remote_node_id_opt ≠ none ∧
      remote_node_id_opt ≠
        some ((remote_enr_opt.map ENR.node_id).getD 0) then
    .error (.valueError "Node id according to ENR must match given one")
  else
    let remote_node_id := match remote_node_id_opt, remote_enr_opt with
      | some nid, _ => nid
      | none, some enr => enr.node_id
      | none, none => 0
    let enr_sequence_number := match remote_enr_opt with
      | some enr => enr.sequence_number
      | none => 0
    .ok { local_private_key := local_private_key
          local_enr := local_enr
          remote_node_id := remote_node_id
          remote_enr := remote_enr_opt
          who_are_you_packet := WhoAreYouPacket.prepare remote_node_id
            initiating_packet_auth_tag fresh_id_nonce enr_sequence_number }

/-- `HandshakeRecipient.is_response_packet` (`ddht/v5/handshake.py:226-231`):
an AuthHeader packet whose tag recovers to the expected source node id. -/
def HandshakeRecipient.is_response_packet (self : HandshakeRecipient)
    (packet : Packet) : Bool :=
  match packet with
  | .authHeader p =>
    recover_source_id_from_tag p.tag self.local_enr.node_id =
      self.remote_node_id
  | _ => false

/-- The staleness test of `ddht/v5/handshake.py:300-304`: with a known remote
ENR, a received ENR whose sequence number is not strictly greater is stale. -/
def enr_is_stale (known_remote_enr : Option ENR) (received_enr : ENR) : Bool :=
  match known_remote_enr with
  | some known => received_enr.sequence_number ≤ known.sequence_number
  | none => false

/-- `HandshakeRecipient.decrypt_and_validate_auth_response`
(`ddht/v5/handshake.py:271-329`): decrypt the auth response; if it carries an
ENR, validate the ENR's signature, reject it when it is not newer than the
known one, reject it when its node id is not the expected peer; then validate
the id-nonce signature against the current remote ENR's public key; return the
ENR received in the response (possibly `none`). -/
def HandshakeRecipient.decrypt_and_validate_auth_response
    (scheme : HandshakeScheme) (self : HandshakeRecipient)
    (auth_header_packet : AuthHeaderPacket) (auth_response_key id_nonce : Nat) :
    Except HandshakeError (Option ENR) :=
  match auth_header_packet.decrypt_auth_response auth_response_key with
  | none => .error (.handshakeFailure "Unable to decrypt auth response")
  | some (id_nonce_signature, enr) =>
    let validated_current : Except HandshakeError ENR :=
      match enr with
      | none =>
        match self.remote_enr with
        | none => .error (.handshakeFailure "Peer failed to send their ENR")
        | some current_remote_enr => .ok current_remote_enr
      | some received_enr =>
        if ¬ scheme.validate_enr_signature received_enr then
          .error (.handshakeFailure
            "ENR in auth response contains invalid signature")
        else if enr_is_stale self.remote_enr received_enr then
          .error (.handshakeFailure
            "ENR in auth response is not newer than what we already have")
        else if received_enr.node_id ≠ self.remote_node_id then
          .error (.handshakeFailure
            "ENR received from peer belongs to different node")
        else
          .ok received_enr
    match validated_current with
    | .error e => .error e
    | .ok current_remote_enr =>
      if scheme.validate_id_nonce_signature id_nonce
          auth_header_packet.auth_header.ephemeral_public_key
          id_nonce_signature current_remote_enr.public_key then
        .ok enr
      else
        .error (.handshakeFailure
          "Invalid id nonce signature in auth response")

/-- `HandshakeRecipient.decrypt_and_validate_message`
(`ddht/v5/handshake.py:331-341`): decryption failure of the enclosed message
becomes a `HandshakeFailure`. -/
def HandshakeRecipient.decrypt_and_validate_message
    (auth_header_packet : AuthHeaderPacket) (decryption_key : Nat) :
    Except HandshakeError Message :=
  match auth_header_packet.decrypt_message decryption_key with
  | some message => .ok message
  | none =>
    .error (.handshakeFailure
      "Failed to decrypt message in AuthHeader packet")

/-- `HandshakeRecipient.complete_handshake` (`ddht/v5/handshake.py:233-269`):
check the packet is the expected AuthHeader, validate the ephemeral public
key, derive session keys (recipient role), validate the auth response, and
decrypt the enclosed message. -/
def HandshakeRecipient.complete_handshake (scheme : HandshakeScheme)
    (self : HandshakeRecipient) (response_packet : Packet) :
    Except HandshakeError HandshakeResult :=
  if ¬ self.is_response_packet response_packet then
    .error (.valueError "Packet is not the expected response packet")
  else
    match response_packet with
    | .authHeader auth_header_packet =>
      let ephemeral_public_key :=
        auth_header_packet.auth_header.ephemeral_public_key
      if ¬ scheme.validate_handshake_public_key ephemeral_public_key then
        .error (.handshakeFailure
          "AuthHeader packet contains invalid ephemeral public key")
      else
        let session_keys := scheme.compute_session_keys
          self.local_private_key ephemeral_public_key self.local_enr.node_id
          self.remote_node_id self.who_are_you_packet.id_nonce false
        match self.decrypt_and_validate_auth_response scheme
            auth_header_packet session_keys.auth_response_key
            self.who_are_you_packet.id_nonce with
        | .error e => .error e
        | .ok enr =>
          match HandshakeRecipient.decrypt_and_validate_message
              auth_header_packet session_keys.decryption_key with
          | .error e => .error e
          | .ok message =>
            .ok { session_keys := session_keys, enr := enr,
                  message := some message, auth_header_packet := none }
    | _ =>
      .error (.valueError "Invariant: Only AuthHeader packets are valid")

/-- `complete_handshake` with the participant state threaded explicitly: the
method in the source reads `self` but never assigns to it, so the state it
returns is the input state, on success and on every raised exception alike. -/
def HandshakeRecipient.complete_handshake_step (scheme : HandshakeScheme)
    (self : HandshakeRecipient) (response_packet : Packet) :
    HandshakeRecipient × Except HandshakeError HandshakeResult :=
  (self, self.complete_handshake scheme response_packet)

/-- A concrete executable instantiation of the abstract cryptography, used to
evaluate the handshake code on explicit inputs: a private key acts as its own
public key, an id-nonce signature is the sum of nonce, ephemeral key and
public key, and an ENR signature is the sum of node id and sequence number. -/
def toyScheme : HandshakeScheme :=
  { compute_session_keys := fun lpk rpk _ _ salt init =>
      if init then
        { encryption_key := lpk + rpk + salt
          decryption_key := lpk + rpk + salt + 1
          auth_response_key := lpk + rpk + salt + 2 }
      else
        { encryption_key := lpk + rpk + salt + 1
          decryption_key := lpk + rpk + salt
          auth_response_key := lpk + rpk + salt + 2 }
    create_id_nonce_signature := fun i e p => i + e + p
    validate_id_nonce_signature := fun i e s pk => s = i + e + pk
    validate_handshake_public_key := fun _ => true
    validate_enr_signature := fun e => e.signature = e.node_id + e.sequence_number }

/-! ## Theorems -/

/-- C6: every inbound message is delivered to the request handler exactly when
its message type has a registered request handler, and to the response handler
exactly when `(sender_node_id, request_id)` has a registered response handler;
when both hold it is delivered twice, once to each; when neither holds nothing
is delivered and a cooperative checkpoint is executed. -/
theorem handle_inbound_message_policy (st : DispatcherState)
    (im : InboundMessage) :
    (Delivery.toRequestHandler im.message.message_type ∈
        (handle_inbound_message st im).deliveries ↔
      im.message.message_type ∈ st.request_handler_types) ∧
    (Delivery.toResponseHandler (im.sender_node_id, im.message.request_id) ∈
        (handle_inbound_message st im).deliveries ↔
      (im.sender_node_id, im.message.request_id) ∈
        st.response_handler_keys) ∧
    (im.message.message_type ∈ st.request_handler_types →
      (im.sender_node_id, im.message.request_id) ∈
        st.response_handler_keys →
      (handle_inbound_message st im).deliveries =
        [Delivery.toRequestHandler im.message.message_type,
         Delivery.toResponseHandler
           (im.sender_node_id, im.message.request_id)]) ∧
    (im.message.message_type ∉ st.request_handler_types →
      (im.sender_node_id, im.message.request_id) ∉
        st.response_handler_keys →
      (handle_inbound_message st im).deliveries = [] ∧
        (handle_inbound_message st im).checkpointed = true) := by
  by_cases hreq : im.message.message_type ∈ st.request_handler_types <;>
    by_cases hresp : (im.sender_node_id, im.message.request_id) ∈
      st.response_handler_keys <;>
    simp [handle_inbound_message, hreq, hresp]

/-- C6 witness: a concrete message that is both a request and a response is
delivered exactly twice. -/
theorem handle_inbound_message_policy_witness :
    (handle_inbound_message
      { request_handler_types := [1], response_handler_keys := [(7, 5)] }
      { sender_node_id := 7, message := .ping 5 0 }).deliveries =
      [Delivery.toRequestHandler 1, Delivery.toResponseHandler (7, 5)] :=
  (handle_inbound_message_policy
    { request_handler_types := [1], response_handler_keys := [(7, 5)] }
    { sender_node_id := 7, message := .ping 5 0 }).2.2.1
    (by decide) (by decide)

/-- C8: packet encryption round trip: for every message and session key,
decrypting with the key a packet prepared under that key yields the message
again, for AuthTag packets and for AuthHeader packets, for all tags, auth
tags, id nonces, signatures, auth-response keys, carried ENRs and ephemeral
keys. -/
theorem packet_encryption_round_trip (tag auth_tag key id_nonce
    id_nonce_signature auth_response_key ephemeral_public_key : Nat)
    (m : Message) (enr : Option ENR) :
    (AuthTagPacket.prepare tag auth_tag m key).decrypt_message key = some m ∧
    (AuthHeaderPacket.prepare tag auth_tag id_nonce m key id_nonce_signature
      auth_response_key enr ephemeral_public_key).decrypt_message key =
      some m := by
  constructor <;>
    simp [AuthTagPacket.prepare, AuthTagPacket.decrypt_message,
      AuthHeaderPacket.prepare, AuthHeaderPacket.decrypt_message,
      aesgcm_encrypt, aesgcm_decrypt]

/-- C1 (code bug): `request_nodes` only type-checks the FIRST response; a
subsequent response that is not a `NodesMessage` is appended to the returned
tuple instead of raising `UnexpectedMessage`.  Here the first response is a
Nodes message with `total = 2` and the second is a Ping message; the call
returns both. -/
theorem request_nodes_accepts_non_nodes_followup :
    request_nodes (fun i => if i = 0 then
        { sender_node_id := 7, message := .nodes 1 2 [] }
      else
        { sender_node_id := 7, message := .ping 1 0 }) =
      .ok [{ sender_node_id := 7, message := .nodes 1 2 [] },
           { sender_node_id := 7, message := .ping 1 0 }] ∧
    Message.isNodes (.ping 1 0) = false := by
  constructor
  · rfl
  · rfl

/-- C3: `get_free_request_id` either returns a request id in `[0, 2^64)` that
is not registered under `(peer, id)` among the response handlers, or, after
`MAX_REQUEST_ID_ATTEMPTS = 3` colliding random draws, fails (the spec's
`ExhaustedRequestIds`).  The hypothesis records that every random draw is in
`random.randint`'s range `[0, MAX_REQUEST_ID]`. -/
theorem get_free_request_id_spec (st : DispatcherState) (node_id : Nat)
    (draws : Nat → Nat)
    (hrange : ∀ i < MAX_REQUEST_ID_ATTEMPTS, draws i ≤ MAX_REQUEST_ID) :
    (∃ rid, get_free_request_id st node_id draws = .ok rid ∧
      rid < 2 ^ 64 ∧ (node_id, rid) ∉ st.response_handler_keys) ∨
    (get_free_request_id st node_id draws = .error .exhaustedRequestIds ∧
      ∀ i < MAX_REQUEST_ID_ATTEMPTS,
        (node_id, draws i) ∈ st.response_handler_keys) := by
  have hb : ∀ i < MAX_REQUEST_ID_ATTEMPTS, draws i < 2 ^ 64 := by
    intro i hi
    have := hrange i hi
    simp only [MAX_REQUEST_ID] at this
    omega
  by_cases h0 : (node_id, draws 0) ∈ st.response_handler_keys
  · by_cases h1 : (node_id, draws 1) ∈ st.response_handler_keys
    · by_cases h2 : (node_id, draws 2) ∈ st.response_handler_keys
      · right
        refine ⟨?_, ?_⟩
        · simp [get_free_request_id, MAX_REQUEST_ID_ATTEMPTS,
            get_free_request_id_loop, h0, h1, h2]
        · intro i hi
          simp only [MAX_REQUEST_ID_ATTEMPTS] at hi
          interval_cases i
          · exact h0
          · exact h1
          · exact h2
      · left
        refine ⟨draws 2, ?_, hb 2 (by simp [MAX_REQUEST_ID_ATTEMPTS]), h2⟩
        simp [get_free_request_id, MAX_REQUEST_ID_ATTEMPTS,
          get_free_request_id_loop, h0, h1, h2]
    · left
      refine ⟨draws 1, ?_, hb 1 (by simp [MAX_REQUEST_ID_ATTEMPTS]), h1⟩
      simp [get_free_request_id, MAX_REQUEST_ID_ATTEMPTS,
        get_free_request_id_loop, h0, h1]
  · left
    refine ⟨draws 0, ?_, hb 0 (by simp [MAX_REQUEST_ID_ATTEMPTS]), h0⟩
    simp [get_free_request_id, MAX_REQUEST_ID_ATTEMPTS,
      get_free_request_id_loop, h0]

/-- C3 witness: with no registered response handlers and every draw equal to
5, a free request id is found. -/
theorem get_free_request_id_spec_witness :
    (∃ rid, get_free_request_id
        { request_handler_types := [], response_handler_keys := [] }
        3 (fun _ => 5) = .ok rid ∧
      rid < 2 ^ 64 ∧ (3, rid) ∉
        ({ request_handler_types := [],
           response_handler_keys := [] } : DispatcherState).response_handler_keys) ∨
    (get_free_request_id
        { request_handler_types := [], response_handler_keys := [] }
        3 (fun _ => 5) = .error .exhaustedRequestIds ∧
      ∀ i < MAX_REQUEST_ID_ATTEMPTS, (3, (fun _ => 5 : Nat → Nat) i) ∈
        ({ request_handler_types := [],
           response_handler_keys := [] } : DispatcherState).response_handler_keys) :=
  get_free_request_id_spec
    { request_handler_types := [], response_handler_keys := [] }
    3 (fun _ => 5)
    (by intro i _; simp [MAX_REQUEST_ID])

/-- A concrete local ENR used to evaluate the handshake on explicit inputs:
sequence number 10, node id 1, public key 42 (its own toy private key),
signature valid for `toyScheme`. -/
def enrA : ENR :=
  { sequence_number := 10, node_id := 1, public_key := 42, signature := 11 }

/-- A concrete remote ENR: sequence number 3, node id 2, public key 200,
signature valid for `toyScheme`. -/
def enrB : ENR :=
  { sequence_number := 3, node_id := 2, public_key := 200, signature := 5 }

/-- C2: when the initiator completes against a WhoAreYou challenge, the
prepared AuthHeader packet's auth response carries the local ENR exactly when
the WhoAreYou's `enr_sequence_number` is strictly below the local ENR's
`sequence_number`, and carries no ENR otherwise. -/
theorem initiator_auth_header_enr_iff (scheme : HandshakeScheme)
    (self : HandshakeInitiator) (way : WhoAreYouPacket)
    (eph_priv eph_pub new_auth_tag : Nat) (res : HandshakeResult)
    (h : self.complete_handshake scheme (.whoAreYou way) eph_priv eph_pub
      new_auth_tag = .ok res) :
    ∃ ahp, res.auth_header_packet = some ahp ∧
      (ahp.auth_header.encrypted_auth_response.plaintext.enr =
          some self.local_enr ↔
        way.enr_sequence_number < self.local_enr.sequence_number) ∧
      (ahp.auth_header.encrypted_auth_response.plaintext.enr = none ↔
        ¬ way.enr_sequence_number < self.local_enr.sequence_number) := by
  by_cases hresp : self.is_response_packet (.whoAreYou way) = true
  · simp only [HandshakeInitiator.complete_handshake, hresp, not_true,
      if_false, Bool.not_true, reduceIte] at h
    rw [Except.ok.injEq] at h
    subst h
    refine ⟨_, rfl, ?_, ?_⟩ <;>
      by_cases hlt : way.enr_sequence_number <
        self.local_enr.sequence_number <;>
      simp [AuthHeaderPacket.prepare, aesgcm_encrypt, hlt]
  · simp [HandshakeInitiator.complete_handshake, hresp] at h

/-- C2 witness: a concrete initiator whose local ENR has sequence number 10,
challenged with `enr_seq = 3`, includes its local ENR in the auth response. -/
theorem initiator_auth_header_enr_iff_witness :
    ∃ res, (mkHandshakeInitiator 42 enrA enrB (.ping 1 10) 99 77
        ).complete_handshake toyScheme
        (.whoAreYou
          { magic := 0
            token := 99
            id_nonce := 5
            enr_sequence_number := 3 }) 1 2 3 = .ok res ∧
      ∃ ahp, res.auth_header_packet = some ahp ∧
        (ahp.auth_header.encrypted_auth_response.plaintext.enr =
            some (mkHandshakeInitiator 42 enrA enrB (.ping 1 10) 99
              77).local_enr ↔
          (3 : Nat) < (mkHandshakeInitiator 42 enrA enrB (.ping 1 10) 99
            77).local_enr.sequence_number) ∧
        (ahp.auth_header.encrypted_auth_response.plaintext.enr = none ↔
          ¬ (3 : Nat) < (mkHandshakeInitiator 42 enrA enrB (.ping 1 10) 99
            77).local_enr.sequence_number) :=
  ⟨_, rfl, initiator_auth_header_enr_iff toyScheme
    (mkHandshakeInitiator 42 enrA enrB (.ping 1 10) 99 77)
    { magic := 0, token := 99, id_nonce := 5, enr_sequence_number := 3 } 1 2 3
    _ rfl⟩

/-- C7: every successfully constructed handshake recipient prepares a
WhoAreYou challenge whose token is the initiating packet's auth tag, whose id
nonce is the freshly drawn random 32-byte nonce, and whose
`enr_sequence_number` is the stored remote ENR's sequence number when one is
known and 0 otherwise. -/
theorem recipient_who_are_you_spec (local_private_key : Nat)
    (local_enr : ENR) (remote_node_id_opt : Option Nat)
    (remote_enr_opt : Option ENR)
    (initiating_packet_auth_tag fresh_id_nonce : Nat)
    (r : HandshakeRecipient)
    (hn : fresh_id_nonce < 2 ^ 256)
    (h : mkHandshakeRecipient local_private_key local_enr remote_node_id_opt
      remote_enr_opt initiating_packet_auth_tag fresh_id_nonce = .ok r) :
    r.who_are_you_packet.token = initiating_packet_auth_tag ∧
    r.who_are_you_packet.id_nonce = fresh_id_nonce ∧
    r.who_are_you_packet.id_nonce < 2 ^ 256 ∧
    r.who_are_you_packet.enr_sequence_number =
      (match remote_enr_opt with
        | some enr => enr.sequence_number
        | none => 0) := by
  unfold mkHandshakeRecipient at h
  split at h
  · cases h
  · split at h
    · cases h
    · rw [Except.ok.injEq] at h
      subst h
      refine ⟨rfl, rfl, hn, ?_⟩
      cases remote_enr_opt <;> rfl

/-- C7 witness: a recipient constructed with a known remote ENR challenges
with that ENR's sequence number and the given token and nonce. -/
theorem recipient_who_are_you_spec_witness :
    ∃ r, mkHandshakeRecipient 5 enrA none (some enrB) 99 13 = .ok r ∧
      (r.who_are_you_packet.token = 99 ∧
        r.who_are_you_packet.id_nonce = 13 ∧
        r.who_are_you_packet.id_nonce < 2 ^ 256 ∧
        r.who_are_you_packet.enr_sequence_number =
          (match (some enrB : Option ENR) with
            | some enr => enr.sequence_number
            | none => 0)) :=
  ⟨_, rfl, recipient_who_are_you_spec 5 enrA none (some enrB) 99 13 _
    (by norm_num) rfl⟩

/-- C9: constructing a handshake recipient fails with an error when neither a
remote ENR nor a remote node id is supplied, and when both are supplied but
disagree on the node id; every successfully constructed recipient records the
explicitly given node id, or the ENR's node id when only the ENR was given. -/
theorem recipient_init_validation (local_private_key : Nat) (local_enr : ENR)
    (remote_node_id_opt : Option Nat) (remote_enr_opt : Option ENR)
    (initiating_packet_auth_tag fresh_id_nonce : Nat) :
    ((remote_node_id_opt = none ∧ remote_enr_opt = none) →
      isValueError (mkHandshakeRecipient local_private_key local_enr
        remote_node_id_opt remote_enr_opt initiating_packet_auth_tag
        fresh_id_nonce)) ∧
    (∀ n e, remote_node_id_opt = some n → remote_enr_opt = some e →
      n ≠ e.node_id →
      isValueError (mkHandshakeRecipient local_private_key local_enr
        remote_node_id_opt remote_enr_opt initiating_packet_auth_tag
        fresh_id_nonce)) ∧
    (∀ r, mkHandshakeRecipient local_private_key local_enr
        remote_node_id_opt remote_enr_opt initiating_packet_auth_tag
        fresh_id_nonce = .ok r →
      r.remote_node_id = (match remote_node_id_opt, remote_enr_opt with
        | some n, _ => n
        | none, some e => e.node_id
        | none, none => 0)) := by
  refine ⟨?_, ?_, ?_⟩
  · rintro ⟨rfl, rfl⟩
    simp [mkHandshakeRecipient, isValueError]
  · rintro n e rfl rfl hne
    simp [mkHandshakeRecipient, isValueError, hne]
  · intro r h
    unfold mkHandshakeRecipient at h
    split at h
    · cases h
    · split at h
      · cases h
      · rw [Except.ok.injEq] at h
        subst h
        rcases remote_node_id_opt with _ | n <;>
          rcases remote_enr_opt with _ | e <;> rfl

/-- C9 witness: the two failing constructions fail and a successful one
records the ENR's node id. -/
theorem recipient_init_validation_witness :
    isValueError (mkHandshakeRecipient 1 enrA none none 9 5) ∧
    isValueError (mkHandshakeRecipient 1 enrA (some 7) (some enrB) 9 5) ∧
    ∃ r, mkHandshakeRecipient 1 enrA none (some enrB) 9 5 = .ok r ∧
      r.remote_node_id = enrB.node_id :=
  ⟨(recipient_init_validation 1 enrA none none 9 5).1 ⟨rfl, rfl⟩,
   (recipient_init_validation 1 enrA (some 7) (some enrB) 9 5).2.1 7 enrB
     rfl rfl (by decide),
   ⟨_, rfl, (recipient_init_validation 1 enrA none (some enrB) 9 5).2.2 _
     rfl⟩⟩

/-- C10: a recipient that knows no prior ENR for the peer rejects an auth
response that carries no ENR: `complete_handshake` fails with
`HandshakeFailure` even though the auth response itself decrypted, the packet
matched the expected source and the ephemeral public key was valid. -/
theorem recipient_missing_enr_failure (scheme : HandshakeScheme)
    (self : HandshakeRecipient) (ahp : AuthHeaderPacket)
    (id_nonce_signature : Nat)
    (hresp : self.is_response_packet (.authHeader ahp) = true)
    (heph : scheme.validate_handshake_public_key
      ahp.auth_header.ephemeral_public_key = true)
    (hremote : self.remote_enr = none)
    (hdec : ahp.decrypt_auth_response
      (scheme.compute_session_keys self.local_private_key
        ahp.auth_header.ephemeral_public_key self.local_enr.node_id
        self.remote_node_id self.who_are_you_packet.id_nonce
        false).auth_response_key = some (id_nonce_signature, none)) :
    self.complete_handshake scheme (.authHeader ahp) =
      .error (.handshakeFailure "Peer failed to send their ENR") := by
  simp only [HandshakeRecipient.complete_handshake,
    HandshakeRecipient.decrypt_and_validate_auth_response, hresp, heph,
    hremote, hdec, Bool.not_true, Bool.false_eq_true, not_false_eq_true,
    reduceIte, not_true_eq_false]

/-- A concrete recipient that knows the remote node id but no remote ENR. -/
def recipNoEnr : HandshakeRecipient :=
  { local_private_key := 5
    local_enr := enrA
    remote_node_id := 2
    remote_enr := none
    who_are_you_packet := WhoAreYouPacket.prepare 2 99 13 0 }

/-- A concrete AuthHeader packet addressed to `recipNoEnr` whose auth
response decrypts under the derived auth-response key (5 + 3 + 13 + 2 = 23
for `toyScheme`) and carries no ENR. -/
def ahpNoEnr : AuthHeaderPacket :=
  { tag := compute_tag 2 1
    auth_header :=
      { auth_tag := 7
        id_nonce := 13
        ephemeral_public_key := 3
        encrypted_auth_response := aesgcm_encrypt 23 0 0
          { version := 5, id_nonce_signature := 0, enr := none } }
    encrypted_message := aesgcm_encrypt 22 7 (compute_tag 2 1) (.ping 1 0) }

/-- C10 witness: the concrete recipient with no stored ENR rejects the
concrete ENR-less auth response. -/
theorem recipient_missing_enr_failure_witness :
    recipNoEnr.complete_handshake toyScheme (.authHeader ahpNoEnr) =
      .error (.handshakeFailure "Peer failed to send their ENR") :=
  recipient_missing_enr_failure toyScheme recipNoEnr ahpNoEnr 0
    (by decide) rfl rfl (by decide)

/-- Helper for C5: when the id-nonce signature carried in the auth response
validates under no public key, `decrypt_and_validate_auth_response` always
raises a `HandshakeFailure`, whatever key it is called with. -/
theorem auth_response_always_fails (scheme : HandshakeScheme)
    (self : HandshakeRecipient) (ahp : AuthHeaderPacket)
    (auth_response_key id_nonce : Nat)
    (hsig : ∀ pk, scheme.validate_id_nonce_signature id_nonce
      ahp.auth_header.ephemeral_public_key
      ahp.auth_header.encrypted_auth_response.plaintext.id_nonce_signature
      pk = false) :
    ∃ msg, self.decrypt_and_validate_auth_response scheme ahp
      auth_response_key id_nonce = .error (.handshakeFailure msg) := by
  unfold HandshakeRecipient.decrypt_and_validate_auth_response
    AuthHeaderPacket.decrypt_auth_response aesgcm_decrypt
  by_cases hk : ahp.auth_header.encrypted_auth_response.key =
      auth_response_key ∧
      ahp.auth_header.encrypted_auth_response.nonce = 0 ∧
      ahp.auth_header.encrypted_auth_response.aad = 0
  · rw [if_pos hk]
    rcases hpe : ahp.auth_header.encrypted_auth_response.plaintext.enr with
      _ | received
    · rcases hre : self.remote_enr with _ | known
      · exact ⟨"Peer failed to send their ENR", by simp [hpe, hre]⟩
      · exact ⟨"Invalid id nonce signature in auth response",
          by simp [hpe, hre, hsig]⟩
    · by_cases hvs : scheme.validate_enr_signature received = true
      · by_cases hst : enr_is_stale self.remote_enr received = true
        · exact ⟨"ENR in auth response is not newer than what we already have",
            by simp [hpe, hvs, hst]⟩
        · by_cases hnid : received.node_id = self.remote_node_id
          · exact ⟨"Invalid id nonce signature in auth response",
              by simp [hpe, hvs, hst, hnid, hsig]⟩
          · exact ⟨"ENR received from peer belongs to different node",
              by simp [hpe, hvs, hst, hnid]⟩
      · exact ⟨"ENR in auth response contains invalid signature",
          by simp [hpe, hvs]⟩
  · exact ⟨"Unable to decrypt auth response", by simp [if_neg hk]⟩

/-- C5: an AuthHeader whose id-nonce signature fails validation (under every
public key) makes the recipient's `complete_handshake` fail with
`HandshakeFailure`, and the participant's stored state is unchanged: the
state component returned by the explicit-state step equals the input state
and no `HandshakeResult` is produced. -/
theorem handshake_invalid_signature_rejected (scheme : HandshakeScheme)
    (self : HandshakeRecipient) (ahp : AuthHeaderPacket)
    (hresp : self.is_response_packet (.authHeader ahp) = true)
    (hsig : ∀ pk, scheme.validate_id_nonce_signature
      self.who_are_you_packet.id_nonce
      ahp.auth_header.ephemeral_public_key
      ahp.auth_header.encrypted_auth_response.plaintext.id_nonce_signature
      pk = false) :
    isHandshakeFailure
      (HandshakeRecipient.complete_handshake_step scheme self
        (.authHeader ahp)).2 ∧
    (HandshakeRecipient.complete_handshake_step scheme self
      (.authHeader ahp)).1 = self := by
  refine ⟨?_, rfl⟩
  show isHandshakeFailure (self.complete_handshake scheme (.authHeader ahp))
  unfold HandshakeRecipient.complete_handshake
  by_cases heph : scheme.validate_handshake_public_key
      ahp.auth_header.ephemeral_public_key = true
  · obtain ⟨msg, hmsg⟩ := auth_response_always_fails scheme self ahp
      (scheme.compute_session_keys self.local_private_key
        ahp.auth_header.ephemeral_public_key self.local_enr.node_id
        self.remote_node_id self.who_are_you_packet.id_nonce
        false).auth_response_key self.who_are_you_packet.id_nonce hsig
    simp only [hresp, heph, hmsg, Bool.not_true, Bool.false_eq_true,
      not_false_eq_true, reduceIte, not_true_eq_false]
    trivial
  · simp only [Bool.not_eq_true] at heph
    simp only [hresp, heph, Bool.not_true, Bool.false_eq_true,
      not_false_eq_true, reduceIte, not_true_eq_false]
    trivial

/-- An AuthHeader packet addressed to `recipNoEnr` carrying the valid remote
ENR `enrB` but an id-nonce signature (0) that validates under no key. -/
def ahpBadSig : AuthHeaderPacket :=
  { tag := compute_tag 2 1
    auth_header :=
      { auth_tag := 7
        id_nonce := 13
        ephemeral_public_key := 3
        encrypted_auth_response := aesgcm_encrypt 23 0 0
          { version := 5, id_nonce_signature := 0, enr := some enrB } }
    encrypted_message := aesgcm_encrypt 22 7 (compute_tag 2 1) (.ping 1 0) }

/-- C5 witness: the concrete packet with an unverifiable id-nonce signature
is rejected with `HandshakeFailure` and the recipient state is returned
unchanged. -/
theorem handshake_invalid_signature_rejected_witness :
    isHandshakeFailure
      (HandshakeRecipient.complete_handshake_step toyScheme recipNoEnr
        (.authHeader ahpBadSig)).2 ∧
    (HandshakeRecipient.complete_handshake_step toyScheme recipNoEnr
      (.authHeader ahpBadSig)).1 = recipNoEnr :=
  handshake_invalid_signature_rejected toyScheme recipNoEnr ahpBadSig
    (by decide)
    (by
      intro pk
      simp only [toyScheme, ahpBadSig, recipNoEnr, WhoAreYouPacket.prepare,
        aesgcm_encrypt, decide_eq_false_iff_not]
      omega)

/-- C4 (amended): when the decrypted auth response carries an ENR, the
validation accepts and returns that ENR exactly when the ENR's signature is
valid, the ENR is not stale with respect to a known previous ENR, its node id
is the expected remote node id, AND the id-nonce signature validates against
the contained ENR's public key; every rejection is a `HandshakeFailure`. -/
theorem auth_response_enr_validation (scheme : HandshakeScheme)
    (self : HandshakeRecipient) (ahp : AuthHeaderPacket)
    (auth_response_key id_nonce sig : Nat) (received : ENR)
    (hdec : ahp.decrypt_auth_response auth_response_key =
      some (sig, some received)) :
    (self.decrypt_and_validate_auth_response scheme ahp auth_response_key
        id_nonce = .ok (some received) ↔
      (scheme.validate_enr_signature received = true ∧
        enr_is_stale self.remote_enr received = false ∧
        received.node_id = self.remote_node_id ∧
        scheme.validate_id_nonce_signature id_nonce
          ahp.auth_header.ephemeral_public_key sig
          received.public_key = true)) ∧
    (∀ e, self.decrypt_and_validate_auth_response scheme ahp
        auth_response_key id_nonce = .error e →
      ∃ msg, e = .handshakeFailure msg) := by
  unfold HandshakeRecipient.decrypt_and_validate_auth_response
  rw [hdec]
  by_cases hvs : scheme.validate_enr_signature received = true <;>
    by_cases hst : enr_is_stale self.remote_enr received = true <;>
    by_cases hnid : received.node_id = self.remote_node_id <;>
    by_cases hs : scheme.validate_id_nonce_signature id_nonce
      ahp.auth_header.ephemeral_public_key sig received.public_key = true <;>
    simp [hvs, hst, hnid, hs]

/-- C4 counterexample to the claim as stated: a decrypted auth response whose
contained ENR passes all three listed checks (valid signature, matching node
id, no stale-sequence conflict) is still rejected, because its id-nonce
signature does not validate; the contained ENR is not returned. -/
theorem auth_response_enr_validation_counterexample :
    toyScheme.validate_enr_signature enrB = true ∧
    enr_is_stale recipNoEnr.remote_enr enrB = false ∧
    enrB.node_id = recipNoEnr.remote_node_id ∧
    ahpBadSig.decrypt_auth_response 23 = some (0, some enrB) ∧
    recipNoEnr.decrypt_and_validate_auth_response toyScheme ahpBadSig 23 13 =
      .error (.handshakeFailure
        "Invalid id nonce signature in auth response") :=
  ⟨rfl, rfl, rfl, rfl, rfl⟩

/-- An AuthHeader packet like `ahpBadSig` but whose id-nonce signature (216 =
13 + 3 + 200) validates against `enrB`'s public key under `toyScheme`. -/
def ahpGoodSig : AuthHeaderPacket :=
  { tag := compute_tag 2 1
    auth_header :=
      { auth_tag := 7
        id_nonce := 13
        ephemeral_public_key := 3
        encrypted_auth_response := aesgcm_encrypt 23 0 0
          { version := 5, id_nonce_signature := 216, enr := some enrB } }
    encrypted_message := aesgcm_encrypt 22 7 (compute_tag 2 1) (.ping 1 0) }

/-- C4 witness: the amended validation evaluated on a concrete auth response
whose ENR and id-nonce signature both check out. -/
theorem auth_response_enr_validation_witness :
    (recipNoEnr.decrypt_and_validate_auth_response toyScheme ahpGoodSig 23
        13 = .ok (some enrB) ↔
      (toyScheme.validate_enr_signature enrB = true ∧
        enr_is_stale recipNoEnr.remote_enr enrB = false ∧
        enrB.node_id = recipNoEnr.remote_node_id ∧
        toyScheme.validate_id_nonce_signature 13
          ahpGoodSig.auth_header.ephemeral_public_key 216
          enrB.public_key = true)) ∧
    (∀ e, recipNoEnr.decrypt_and_validate_auth_response toyScheme ahpGoodSig
        23 13 = .error e →
      ∃ msg, e = .handshakeFailure msg) :=
  auth_response_enr_validation toyScheme recipNoEnr ahpGoodSig 23 13 216
    enrB rfl

end DDHT


